import Mathlib

/-!
Verification of the Casemellow RAG chatbot backend (ingestion pipeline,
embedding provider wrapper, retrieval and response assembly).

The Python sources are shallowly embedded as Lean functions:
* `pyStrip` models Python `str.strip()` (drop leading/trailing whitespace);
* the ChromaDB collection is modelled as an association list keyed by the
  entry id, where adding an existing id overwrites the stored entry
  (the spec's `upsert` contract for the external vector store, §4.3);
* the external embedding provider is a parameter `String → Except Unit V`
  (an `Except.error` models a raised provider exception);
* the generative model call is a parameter `Option (Except Unit String)`
  (`none` models an uninitialized client).
-/

namespace Casemellow

/-! ## Python `str.strip()` -/

/-- Model of Python `str.strip()` : remove leading and trailing whitespace. -/
def pyStrip (s : String) : String :=
  String.mk (((s.data.dropWhile Char.isWhitespace).reverse.dropWhile
      Char.isWhitespace).reverse)

theorem dropWhile_dropWhile {α : Type} (p : α → Bool) (l : List α) :
    (l.dropWhile p).dropWhile p = l.dropWhile p := by
  induction l with
  | nil => rfl
  | cons a t ih =>
    by_cases h : p a = true
    · simp [List.dropWhile_cons, h, ih]
    · simp [List.dropWhile_cons, h]

theorem dropWhile_head_not {α : Type} (p : α → Bool) (l : List α) (a : α)
    (t : List α) (h : l.dropWhile p = a :: t) : p a = false := by
  induction l with
  | nil => simp [List.dropWhile] at h
  | cons b l ih =>
    by_cases hb : p b = true
    · exact ih (by simpa [List.dropWhile_cons, hb] using h)
    · rw [List.dropWhile_cons, if_neg (by simp [hb])] at h
      cases h
      simpa using hb

theorem dropWhile_eq_self_of_head {α : Type} (p : α → Bool) (l : List α)
    (h : ∀ a t, l = a :: t → p a = false) : l.dropWhile p = l := by
  cases l with
  | nil => rfl
  | cons a t => simp [List.dropWhile_cons, h a t rfl]

/-- Auxiliary: the left-strip of a list. -/
def stripLeftL {α : Type} (p : α → Bool) (l : List α) : List α := l.dropWhile p

/-- Auxiliary: the right-strip of a list. -/
def stripRightL {α : Type} (p : α → Bool) (l : List α) : List α :=
  (l.reverse.dropWhile p).reverse

theorem stripRightL_prefix {α : Type} (p : α → Bool) (l : List α) :
    stripRightL p l <+: l := by
  have h : l.reverse.dropWhile p <:+ l.reverse := List.dropWhile_suffix p
  have := List.reverse_prefix.mpr (by simpa [stripRightL] using h)
  simpa using this

theorem stripLeftL_stripRightL_stripLeftL {α : Type} (p : α → Bool)
    (l : List α) :
    stripLeftL p (stripRightL p (stripLeftL p l)) =
      stripRightL p (stripLeftL p l) := by
  apply dropWhile_eq_self_of_head
  intro a t h
  have hpre : stripRightL p (stripLeftL p l) <+: stripLeftL p l :=
    stripRightL_prefix p _
  rw [h] at hpre
  obtain ⟨u, hu⟩ := hpre
  exact dropWhile_head_not p l a (t ++ u) (by simpa [stripLeftL] using hu.symm)

theorem stripRightL_stripRightL {α : Type} (p : α → Bool) (l : List α) :
    stripRightL p (stripRightL p l) = stripRightL p l := by
  simp [stripRightL, dropWhile_dropWhile]

/-- `pyStrip` is idempotent: stripping an already-stripped string is the
identity. -/
theorem pyStrip_pyStrip (s : String) : pyStrip (pyStrip s) = pyStrip s := by
  show String.mk (stripRightL _ (stripLeftL _ (stripRightL _ (stripLeftL _ s.data)))) =
    String.mk (stripRightL _ (stripLeftL _ s.data))
  rw [stripLeftL_stripRightL_stripLeftL, stripRightL_stripRightL]

/-! ## Vector store collection

A collection is an association list of (id, entry) pairs.  `storeAdd`
implements the spec's `upsert` contract (§4.3): storing an entry under an
existing id overwrites it in place, otherwise the entry is appended. -/

/-- Add an entry to a collection: overwrite in place if the id exists,
append otherwise. -/
def storeAdd {E : Type} (s : List (String × E)) (i : String) (e : E) :
    List (String × E) :=
  if s.any (fun p => p.1 == i) then
    s.map (fun p => if p.1 == i then (i, e) else p)
  else s ++ [(i, e)]

/-- Apply a list of (id, entry) add operations to a collection in order. -/
def applyOps {E : Type} : List (String × E) → List (String × E) →
    List (String × E)
  | s, [] => s
  | s, (i, e) :: ops => applyOps (storeAdd s i e) ops

/-- Whether the collection holds an entry with the given id. -/
def hasKey {E : Type} (s : List (String × E)) (i : String) : Bool :=
  s.any (fun p => p.1 == i)

theorem list_map_self {α : Type} (l : List α) (f : α → α)
    (h : ∀ a ∈ l, f a = a) : l.map f = l := by
  induction l with
  | nil => rfl
  | cons a t ih =>
    simp only [List.map_cons, h a (by simp)]
    rw [ih (fun b hb => h b (by simp [hb]))]

theorem replace_key_eq {E : Type} (i j : String) (e : E) (p : String × E) :
    ((if p.1 == i then (i, e) else p).1 == j) = (p.1 == j) := by
  by_cases h : p.1 == i
  · rw [if_pos h, show p.1 = i from by simpa using h]
  · rw [if_neg h]

theorem hasKey_map_replace {E : Type} (s : List (String × E)) (i j : String)
    (e : E) :
    hasKey (s.map (fun p => if p.1 == i then (i, e) else p)) j = hasKey s j := by
  unfold hasKey
  rw [List.any_map]
  simp only [Function.comp_def, replace_key_eq]

theorem hasKey_storeAdd_self {E : Type} (s : List (String × E)) (i : String)
    (e : E) : hasKey (storeAdd s i e) i = true := by
  unfold storeAdd
  by_cases h : s.any (fun p => p.1 == i)
  · rw [if_pos h, hasKey_map_replace]; exact h
  · rw [if_neg h]
    simp [hasKey, List.any_append]

theorem hasKey_storeAdd_of {E : Type} (s : List (String × E)) (i j : String)
    (f : E) (h : hasKey s i = true) : hasKey (storeAdd s j f) i = true := by
  unfold storeAdd
  by_cases hj : s.any (fun p => p.1 == j)
  · rw [if_pos hj, hasKey_map_replace]; exact h
  · rw [if_neg hj]
    simp only [hasKey, List.any_append]
    simp [hasKey] at h
    simp [h]

theorem hasKey_applyOps {E : Type} (ops : List (String × E))
    (s : List (String × E)) (i : String) (h : hasKey s i = true) :
    hasKey (applyOps s ops) i = true := by
  induction ops generalizing s with
  | nil => exact h
  | cons op rest ih =>
    obtain ⟨j, f⟩ := op
    exact ih _ (hasKey_storeAdd_of s i j f h)

/-- Absorption: re-adding an entry that the collection already holds (same id,
same value everywhere under that id) leaves the collection unchanged. -/
theorem storeAdd_absorb {E : Type} (s : List (String × E)) (i : String) (e : E)
    (hk : hasKey s i = true) (hv : ∀ p ∈ s, p.1 = i → p.2 = e) :
    storeAdd s i e = s := by
  unfold storeAdd
  rw [if_pos (by simpa [hasKey] using hk)]
  apply list_map_self
  intro p hp
  by_cases h : p.1 == i
  · have h1 : p.1 = i := by simpa using h
    have h2 := hv p hp h1
    rw [if_pos h]
    cases p
    simp_all
  · rw [if_neg h]

theorem replace_replace_same {E : Type} (i : String) (e f : E)
    (p : String × E) :
    (if (if p.1 == i then (i, e) else p).1 == i then (i, f)
      else if p.1 == i then (i, e) else p) =
    (if p.1 == i then (i, f) else p) := by
  obtain ⟨a, b⟩ := p
  by_cases ha : a = i <;> simp [ha]

/-- Writing the same id twice collapses to the last write. -/
theorem storeAdd_storeAdd_same {E : Type} (s : List (String × E)) (i : String)
    (e f : E) : storeAdd (storeAdd s i e) i f = storeAdd s i f := by
  by_cases h : s.any (fun p => p.1 == i)
  · have hm : hasKey (s.map (fun p => if p.1 == i then (i, e) else p)) i
        = true := by rw [hasKey_map_replace]; exact h
    simp only [storeAdd]
    rw [if_pos h, if_pos (by simpa [hasKey] using hm), if_pos h,
      List.map_map]
    apply List.map_congr_left
    intro p _
    simpa [Function.comp_def] using replace_replace_same i e f p
  · simp only [storeAdd]
    rw [if_neg h, if_pos (by simp [List.any_append]), if_neg h,
      List.map_append]
    have h2 : ∀ p ∈ s, (p.1 == i) = false := by
      intro p hp
      by_contra hc
      exact h (List.any_eq_true.mpr ⟨p, hp, by simpa using hc⟩)
    rw [list_map_self s _ (fun p hp => by rw [if_neg (by simp [h2 p hp])])]
    simp

theorem replace_comm {E : Type} (i j : String) (e f : E) (hij : i ≠ j)
    (p : String × E) :
    (if (if p.1 == i then (i, e) else p).1 == j then (j, f)
      else if p.1 == i then (i, e) else p) =
    (if (if p.1 == j then (j, f) else p).1 == i then (i, e)
      else if p.1 == j then (j, f) else p) := by
  obtain ⟨a, b⟩ := p
  by_cases ha : a = i
  · have haj : a ≠ j := ha ▸ hij
    simp [ha, haj, hij]
  · by_cases hb : a = j
    · simp [ha, hb, Ne.symm hij]
    · simp [ha, hb]

/-- Adds under distinct ids commute, provided the first id is already present
(so neither add changes the position of that id's entry). -/
theorem storeAdd_comm {E : Type} (s : List (String × E)) (i j : String)
    (e f : E) (hij : i ≠ j) (hi : hasKey s i = true) :
    storeAdd (storeAdd s i e) j f = storeAdd (storeAdd s j f) i e := by
  have hib : s.any (fun p => p.1 == i) = true := by simpa [hasKey] using hi
  by_cases hj : s.any (fun p => p.1 == j)
  · have hm1 : (s.map (fun p => if p.1 == i then (i, e) else p)).any
        (fun p => p.1 == j) = true := by
      have := hasKey_map_replace s i j e
      simp only [hasKey] at this
      rw [this]; exact hj
    have hm2 : (s.map (fun p => if p.1 == j then (j, f) else p)).any
        (fun p => p.1 == i) = true := by
      have := hasKey_map_replace s j i f
      simp only [hasKey] at this
      rw [this]; exact hib
    simp only [storeAdd]
    rw [if_pos hib, if_pos hj, if_pos hm1, if_pos hm2, List.map_map,
      List.map_map]
    apply List.map_congr_left
    intro p _
    simpa [Function.comp_def] using replace_comm i j e f hij p
  · have hm1 : (s.map (fun p => if p.1 == i then (i, e) else p)).any
        (fun p => p.1 == j) = false := by
      have := hasKey_map_replace s i j e
      simp only [hasKey] at this
      rw [this]; exact Bool.eq_false_iff.mpr hj
    simp only [storeAdd]
    rw [if_neg hj, if_pos hib,
      if_neg (by rw [hm1]; exact Bool.false_ne_true),
      if_pos (by rw [List.any_append, hib]; simp), List.map_append]
    congr 1
    simp [Ne.symm hij]
/-- After `storeAdd s i e`, every pair stored under id `i` holds `e`. -/
theorem storeAdd_val_self {E : Type} (s : List (String × E)) (i : String)
    (e : E) : ∀ p ∈ storeAdd s i e, p.1 = i → p.2 = e := by
  intro p hp hpi
  unfold storeAdd at hp
  by_cases h : s.any (fun q => q.1 == i)
  · rw [if_pos h] at hp
    obtain ⟨q, _, hq⟩ := List.mem_map.mp hp
    by_cases hqi : q.1 == i
    · rw [if_pos hqi] at hq
      rw [← hq]
    · rw [if_neg hqi] at hq
      rw [hq] at hqi
      exact absurd (by simp [hpi]) hqi
  · rw [if_neg h] at hp
    rcases List.mem_append.mp hp with hin | hin
    · exact absurd (List.any_eq_true.mpr ⟨p, hin, by simp [hpi]⟩) h
    · rw [List.mem_singleton.mp hin]

/-- Adding under a different id preserves "every pair under `i` holds `e`". -/
theorem storeAdd_val_other {E : Type} (s : List (String × E)) (i j : String)
    (e f : E) (hij : j ≠ i) (hv : ∀ p ∈ s, p.1 = i → p.2 = e) :
    ∀ p ∈ storeAdd s j f, p.1 = i → p.2 = e := by
  intro p hp hpi
  unfold storeAdd at hp
  by_cases h : s.any (fun q => q.1 == j)
  · rw [if_pos h] at hp
    obtain ⟨q, hqs, hq⟩ := List.mem_map.mp hp
    by_cases hqj : q.1 == j
    · rw [if_pos hqj] at hq
      rw [← hq] at hpi
      exact absurd hpi hij
    · rw [if_neg hqj] at hq
      exact hv q hqs (hq ▸ hpi) ▸ (hq ▸ rfl)
  · rw [if_neg h] at hp
    rcases List.mem_append.mp hp with hin | hin
    · exact hv p hin hpi
    · rw [List.mem_singleton.mp hin] at hpi
      exact absurd hpi hij

/-- Replaying operations none of which write id `i` preserves "every pair
under `i` holds `e`". -/
theorem applyOps_val {E : Type} (ops : List (String × E))
    (s : List (String × E)) (i : String) (e : E)
    (hv : ∀ p ∈ s, p.1 = i → p.2 = e) (hops : ∀ op ∈ ops, op.1 ≠ i) :
    ∀ p ∈ applyOps s ops, p.1 = i → p.2 = e := by
  induction ops generalizing s with
  | nil => exact hv
  | cons op rest ih =>
    obtain ⟨j, f⟩ := op
    exact ih (storeAdd s j f)
      (storeAdd_val_other s i j e f (hops (j, f) (by simp)) hv)
      (fun o ho => hops o (by simp [ho]))

/-- Re-adding an entry whose id is written again later in the replayed
operations does not change the outcome (last write wins, and the id is
already present so positions are unchanged). -/
theorem applyOps_storeAdd_rewritten {E : Type} (ops : List (String × E))
    (t : List (String × E)) (i : String) (e : E) (hk : hasKey t i = true)
    (hw : ops.any (fun op => op.1 == i) = true) :
    applyOps (storeAdd t i e) ops = applyOps t ops := by
  induction ops generalizing t e with
  | nil => simp at hw
  | cons op rest ih =>
    obtain ⟨j, f⟩ := op
    by_cases hji : j = i
    · subst hji
      show applyOps (storeAdd (storeAdd t j e) j f) rest = _
      rw [storeAdd_storeAdd_same]
      rfl
    · have hw' : rest.any (fun op => op.1 == i) = true := by
        rcases List.any_eq_true.mp hw with ⟨op, hop, hopi⟩
        rcases List.mem_cons.mp hop with h | h
        · exact absurd (by simpa [h] using hopi) hji
        · exact List.any_eq_true.mpr ⟨op, h, hopi⟩
      show applyOps (storeAdd (storeAdd t i e) j f) rest = _
      rw [storeAdd_comm t i j e f (fun h => hji h.symm) hk]
      exact ih (storeAdd t j f) e (hasKey_storeAdd_of t i j f hk) hw'

/-- Replaying the same sequence of add operations a second time leaves the
collection unchanged. -/
theorem applyOps_applyOps {E : Type} (ops : List (String × E))
    (s : List (String × E)) :
    applyOps (applyOps s ops) ops = applyOps s ops := by
  induction ops generalizing s with
  | nil => rfl
  | cons op rest ih =>
    obtain ⟨i, e⟩ := op
    show applyOps (storeAdd (applyOps (storeAdd s i e) rest) i e) rest = _
    have hkey : hasKey (applyOps (storeAdd s i e) rest) i = true :=
      hasKey_applyOps rest _ i (hasKey_storeAdd_self s i e)
    by_cases hw : rest.any (fun op => op.1 == i) = true
    · rw [applyOps_storeAdd_rewritten rest _ i e hkey hw]
      exact ih (storeAdd s i e)
    · have hops : ∀ op ∈ rest, op.1 ≠ i := by
        intro op hop hcon
        exact hw (List.any_eq_true.mpr ⟨op, hop, by simp [hcon]⟩)
      rw [storeAdd_absorb _ i e hkey
        (applyOps_val rest _ i e (storeAdd_val_self s i e) hops)]
      exact ih (storeAdd s i e)
/-! ## Data model (src/embed_products.py, src/embed_faqs.py)

A missing dictionary key is `none`; `Option.getD ""` models Python's
`dict.get(key, "")`.  `coverType` may be a list (joined with ", ") or some
other value (rendered with `str`), matching the `isinstance` branch. -/

/-- The `coverType` field: either a list of strings or a scalar rendered by
Python `str()`. -/
inductive CoverVal where
  | strs (xs : List String)
  | scalar (s : String)
deriving DecidableEq

structure Product where
  productName : Option String
  brandName : Option String
  phoneModel : Option String
  coverType : Option CoverVal
  productDescription : Option String
  productPrice : Option String
  productCategory : Option String
  productUrl : Option String
  productImage : Option String
deriving DecidableEq

structure FAQ where
  question : Option String
  answer : Option String
deriving DecidableEq

/-- `cover_type_str` in `create_product_text`: `', '.join(cover_types)` when
the value is a list (the default for a missing key is `[]`), else
`str(cover_types)`. -/
def coverTypeStr : Option CoverVal → String
  | none => String.intercalate ", " []
  | some (CoverVal.strs xs) => String.intercalate ", " xs
  | some (CoverVal.scalar s) => s

/-- `create_product_text` (src/embed_products.py lines 15-28). -/
def create_product_text (product : Product) : String :=
  "Product Name: " ++ product.productName.getD "" ++
  "\n        Brand: " ++ product.brandName.getD "" ++
  "\n        Model: " ++ product.phoneModel.getD "" ++
  "\n        Type: " ++ coverTypeStr product.coverType ++
  "\n        Description: " ++ product.productDescription.getD "" ++
  "\n        Price: " ++ product.productPrice.getD "" ++
  "\n        Category: " ++ product.productCategory.getD ""

/-- `create_faq_text` (src/embed_faqs.py lines 15-21). -/
def create_faq_text (faq : FAQ) : String :=
  "Q: " ++ faq.question.getD "" ++ "\nA: " ++ faq.answer.getD ""

structure ProductMetadata where
  productName : String
  productUrl : String
  productImage : String
  productPrice : String
  brandName : String
  phoneModel : String
  productCategory : String
deriving DecidableEq

/-- The stringified metadata dict built in `embed_and_store_products`. -/
def productMetadata (product : Product) : ProductMetadata where
  productName := product.productName.getD ""
  productUrl := product.productUrl.getD ""
  productImage := product.productImage.getD ""
  productPrice := product.productPrice.getD ""
  brandName := product.brandName.getD ""
  phoneModel := product.phoneModel.getD ""
  productCategory := product.productCategory.getD ""

structure FaqMetadata where
  question : String
  answer : String
deriving DecidableEq

/-- The metadata dict built in `embed_and_store_faqs`. -/
def faqMetadata (faq : FAQ) : FaqMetadata where
  question := faq.question.getD ""
  answer := faq.answer.getD ""

/-! ## Embedding provider wrapper (src/utils/embedding_utils.py)

The external Gemini call is a parameter `provider : String → Except Unit V`;
`Except.error` models a raised provider exception (network/quota error). -/

/-- `get_embedding`: returns `none` ("no embedding") for empty or
whitespace-only text without consulting the provider; otherwise forwards the
provider's answer (or its exception). -/
def get_embedding {V : Type} (provider : String → Except Unit V)
    (text : String) : Except Unit (Option V) :=
  if text = "" ∨ pyStrip text = "" then Except.ok none
  else (provider text).map some

/-- Number of calls `get_embedding` issues to the external provider. -/
def embedProviderCalls (text : String) : Nat :=
  if text = "" ∨ pyStrip text = "" then 0 else 1

/-! ## Ingestion pipeline (src/embed_products.py, src/embed_faqs.py)

Both scripts run the same per-record loop; it is embedded once, generic in
the record type, and instantiated with the product / FAQ normalizer,
metadata builder and id stem. -/

structure StoreEntry (V M : Type) where
  embedding : V
  metadata : M
  document : String
deriving DecidableEq

structure IngestState (V M : Type) where
  store : List (String × StoreEntry V M)
  success_count : Nat
  error_count : Nat
  sleeps : Nat

/-- One iteration of the ingestion loop: normalize, embed (a `none` embedding
or a raised provider error increments the error counter and skips the
record), store under the deterministic id `<stem><idx>`, then pause when
`(idx + 1) % batch_size == 0`. -/
def processRecord {V M R : Type} (provider : String → Except Unit V)
    (textOf : R → String) (metaOf : R → M) (idStem : String)
    (batch_size idx : Nat) (r : R) (st : IngestState V M) :
    IngestState V M :=
  match get_embedding provider (textOf r) with
  | Except.error _ => { st with error_count := st.error_count + 1 }
  | Except.ok none => { st with error_count := st.error_count + 1 }
  | Except.ok (some embedding) =>
      { store := storeAdd st.store (idStem ++ Nat.repr idx)
          ⟨embedding, metaOf r, textOf r⟩
        success_count := st.success_count + 1
        error_count := st.error_count
        sleeps := if (idx + 1) % batch_size == 0 then st.sleeps + 1
          else st.sleeps }

/-- The ingestion loop from index `idx` onwards. -/
def ingestFrom {V M R : Type} (provider : String → Except Unit V)
    (textOf : R → String) (metaOf : R → M) (idStem : String)
    (batch_size : Nat) : Nat → List R → IngestState V M → IngestState V M
  | _, [], st => st
  | idx, r :: rest, st =>
      ingestFrom provider textOf metaOf idStem batch_size (idx + 1) rest
        (processRecord provider textOf metaOf idStem batch_size idx r st)

/-- `embed_and_store_products` (src/embed_products.py lines 41-113), started
on an existing collection `store0` with fresh counters. -/
def embed_and_store_products {V : Type} (provider : String → Except Unit V)
    (batch_size : Nat) (products : List Product)
    (store0 : List (String × StoreEntry V ProductMetadata)) :
    IngestState V ProductMetadata :=
  ingestFrom provider create_product_text productMetadata "product_"
    batch_size 0 products ⟨store0, 0, 0, 0⟩

/-- `embed_and_store_faqs` (src/embed_faqs.py lines 35-100), started on an
existing collection `store0` with fresh counters. -/
def embed_and_store_faqs {V : Type} (provider : String → Except Unit V)
    (batch_size : Nat) (faqs : List FAQ)
    (store0 : List (String × StoreEntry V FaqMetadata)) :
    IngestState V FaqMetadata :=
  ingestFrom provider create_faq_text faqMetadata "faq_"
    batch_size 0 faqs ⟨store0, 0, 0, 0⟩

/-- Whether the ingestion loop stores a record (its embedding is produced,
neither skipped as blank nor failed with a provider exception). -/
def recordSucceeds {V R : Type} (provider : String → Except Unit V)
    (textOf : R → String) (r : R) : Bool :=
  match get_embedding provider (textOf r) with
  | Except.ok (some _) => true
  | _ => false

/-- The add operation a record contributes to the collection, if any. -/
def recordOp {V M R : Type} (provider : String → Except Unit V)
    (textOf : R → String) (metaOf : R → M) (idStem : String) (idx : Nat)
    (r : R) : Option (String × StoreEntry V M) :=
  match get_embedding provider (textOf r) with
  | Except.ok (some embedding) =>
      some (idStem ++ Nat.repr idx, ⟨embedding, metaOf r, textOf r⟩)
  | _ => none

/-- The sequence of add operations an ingestion run performs. -/
def opsFrom {V M R : Type} (provider : String → Except Unit V)
    (textOf : R → String) (metaOf : R → M) (idStem : String) :
    Nat → List R → List (String × StoreEntry V M)
  | _, [] => []
  | idx, r :: rest =>
      match recordOp provider textOf metaOf idStem idx r with
      | some op => op :: opsFrom provider textOf metaOf idStem (idx + 1) rest
      | none => opsFrom provider textOf metaOf idStem (idx + 1) rest

theorem ingestFrom_store {V M R : Type} (provider : String → Except Unit V)
    (textOf : R → String) (metaOf : R → M) (idStem : String)
    (batch_size : Nat) (rs : List R) (idx : Nat) (st : IngestState V M) :
    (ingestFrom provider textOf metaOf idStem batch_size idx rs st).store =
      applyOps st.store (opsFrom provider textOf metaOf idStem idx rs) := by
  induction rs generalizing idx st with
  | nil => rfl
  | cons r rest ih =>
    show (ingestFrom provider textOf metaOf idStem batch_size (idx + 1) rest
      (processRecord provider textOf metaOf idStem batch_size idx r st)).store = _
    rw [ih]
    cases h : get_embedding provider (textOf r) with
    | error e => simp [processRecord, opsFrom, recordOp, h, applyOps]
    | ok o =>
      cases o with
      | none => simp [processRecord, opsFrom, recordOp, h, applyOps]
      | some v => simp [processRecord, opsFrom, recordOp, h, applyOps]

theorem ingestFrom_success {V M R : Type} (provider : String → Except Unit V)
    (textOf : R → String) (metaOf : R → M) (idStem : String)
    (batch_size : Nat) (rs : List R) (idx : Nat) (st : IngestState V M) :
    (ingestFrom provider textOf metaOf idStem batch_size idx rs st).success_count
      = st.success_count + rs.countP (recordSucceeds provider textOf) := by
  induction rs generalizing idx st with
  | nil => rfl
  | cons r rest ih =>
    show (ingestFrom provider textOf metaOf idStem batch_size (idx + 1) rest
      (processRecord provider textOf metaOf idStem batch_size idx r st)).success_count = _
    rw [ih]
    cases h : get_embedding provider (textOf r) with
    | error e =>
      simp [processRecord, recordSucceeds, h, List.countP_cons]
    | ok o =>
      cases o with
      | none => simp [processRecord, recordSucceeds, h, List.countP_cons]
      | some v =>
        simp [processRecord, recordSucceeds, h, List.countP_cons]
        omega

theorem ingestFrom_error {V M R : Type} (provider : String → Except Unit V)
    (textOf : R → String) (metaOf : R → M) (idStem : String)
    (batch_size : Nat) (rs : List R) (idx : Nat) (st : IngestState V M) :
    (ingestFrom provider textOf metaOf idStem batch_size idx rs st).error_count
      = st.error_count
        + rs.countP (fun r => ! recordSucceeds provider textOf r) := by
  induction rs generalizing idx st with
  | nil => rfl
  | cons r rest ih =>
    show (ingestFrom provider textOf metaOf idStem batch_size (idx + 1) rest
      (processRecord provider textOf metaOf idStem batch_size idx r st)).error_count = _
    rw [ih]
    cases h : get_embedding provider (textOf r) with
    | error e =>
      simp [processRecord, recordSucceeds, h, List.countP_cons]
      omega
    | ok o =>
      cases o with
      | none =>
        simp [processRecord, recordSucceeds, h, List.countP_cons]
        omega
      | some v => simp [processRecord, recordSucceeds, h, List.countP_cons]

/-- How many pauses the loop performs from index `idx` on: one for every
record that is successfully stored and whose 1-based position in the full
input is a multiple of `batch_size`. -/
def pauseCount {V R : Type} (provider : String → Except Unit V)
    (textOf : R → String) (batch_size : Nat) : Nat → List R → Nat
  | _, [] => 0
  | idx, r :: rest =>
      (if recordSucceeds provider textOf r ∧ (idx + 1) % batch_size = 0
        then 1 else 0)
      + pauseCount provider textOf batch_size (idx + 1) rest

theorem ingestFrom_sleeps {V M R : Type} (provider : String → Except Unit V)
    (textOf : R → String) (metaOf : R → M) (idStem : String)
    (batch_size : Nat) (rs : List R) (idx : Nat) (st : IngestState V M) :
    (ingestFrom provider textOf metaOf idStem batch_size idx rs st).sleeps
      = st.sleeps + pauseCount provider textOf batch_size idx rs := by
  induction rs generalizing idx st with
  | nil => rfl
  | cons r rest ih =>
    show (ingestFrom provider textOf metaOf idStem batch_size (idx + 1) rest
      (processRecord provider textOf metaOf idStem batch_size idx r st)).sleeps = _
    rw [ih]
    cases h : get_embedding provider (textOf r) with
    | error e =>
      simp [processRecord, recordSucceeds, pauseCount, h]
    | ok o =>
      cases o with
      | none => simp [processRecord, recordSucceeds, pauseCount, h]
      | some v =>
        by_cases hb : (idx + 1) % batch_size = 0
        · simp [processRecord, recordSucceeds, pauseCount, h, hb]
          omega
        · simp [processRecord, recordSucceeds, pauseCount, h, hb]
/-! ## Retrieval and response assembly (src/main.py)

A loaded Chroma collection is modelled as a ranking function
`V → List metadata`: the store's nearest-neighbour ordering for a query
vector, of which `query(..., n_results=k)` returns the first `k` entries.
An uninitialized collection or client is `none`.  Each retrieval function
also reports how many embedding-provider calls and vector-store queries it
performed. -/

structure ProductResult where
  productName : String
  productUrl : String
  productImage : String
  productPrice : String
  brandName : String
  phoneModel : String
deriving DecidableEq

structure FAQResult where
  question : String
  answer : String
deriving DecidableEq

structure QueryResponse where
  query : String
  responseText : String
  products : List ProductResult
  faqs : List FAQResult
  hasResults : Bool
  conversationContext : String
deriving DecidableEq

inductive HTTPError where
  | badRequest (detail : String)
  | serviceUnavailable (detail : String)
deriving DecidableEq

/-- External calls made while serving one request. -/
structure CallCounts where
  embed : Nat
  vectorQuery : Nat
  generate : Nat
deriving DecidableEq

/-- `retrieve_products` (src/main.py lines 97-131): embed the query text,
query the products collection with `n_results = min(top_k, 10)`, and keep
only results whose `productName` and `productPrice` are non-empty.  Returns
the products plus (embedding calls, vector-store queries) made. -/
def retrieve_products {V : Type} (provider : String → Except Unit V)
    (products_collection : Option (V → List ProductMetadata))
    (query_text : String) (top_k : Nat) :
    List ProductResult × Nat × Nat :=
  match products_collection with
  | none => ([], 0, 0)
  | some ranking =>
    match get_embedding provider query_text with
    | Except.error _ => ([], embedProviderCalls query_text, 0)
    | Except.ok none => ([], embedProviderCalls query_text, 0)
    | Except.ok (some query_embedding) =>
      (((ranking query_embedding).take (min top_k 10)).filterMap (fun m =>
          if m.productName != "" && m.productPrice != "" then
            some { productName := m.productName, productUrl := m.productUrl,
                   productImage := m.productImage,
                   productPrice := m.productPrice, brandName := m.brandName,
                   phoneModel := m.phoneModel }
          else none),
        embedProviderCalls query_text, 1)

/-- `retrieve_faqs` (src/main.py lines 133-162): embed the query text, query
the faqs collection with `n_results = min(top_k, 5)`, and keep only results
whose `question` and `answer` are non-empty. -/
def retrieve_faqs {V : Type} (provider : String → Except Unit V)
    (faqs_collection : Option (V → List FaqMetadata))
    (query_text : String) (top_k : Nat) :
    List FAQResult × Nat × Nat :=
  match faqs_collection with
  | none => ([], 0, 0)
  | some ranking =>
    match get_embedding provider query_text with
    | Except.error _ => ([], embedProviderCalls query_text, 0)
    | Except.ok none => ([], embedProviderCalls query_text, 0)
    | Except.ok (some query_embedding) =>
      (((ranking query_embedding).take (min top_k 5)).filterMap (fun m =>
          if m.question != "" && m.answer != "" then
            some { question := m.question, answer := m.answer }
          else none),
        embedProviderCalls query_text, 1)

/-- The deterministic fallback sentence `generate_response_with_gemini`
produces from the retrieved counts when the model call raises
(src/main.py lines 220-228). -/
def fallbackText (nProducts nFaqs : Nat) : String :=
  if nProducts > 0 then
    "I found " ++ Nat.repr nProducts ++
      " product(s) that match your query. Check them out below!"
  else if nFaqs > 0 then
    "I found some helpful information that might answer your question."
  else
    "I couldn\x27t find exactly what you\x27re looking for. Try rephrasing your question or browse our categories!"

/-- `generate_response_with_gemini` (src/main.py lines 164-228).  The
generative call's outcome for this request is `gemini_client`'s payload;
`Except.error` models the call raising.  Returns the response text and the
number of generative-model calls attempted. -/
def generate_response_with_gemini (gemini_client : Option (Except Unit String))
    (products : List ProductResult) (faqs : List FAQResult) : String × Nat :=
  match gemini_client with
  | none =>
    ("I\x27m having trouble connecting to the AI service. Please try again later.", 0)
  | some callResult =>
    match callResult with
    | Except.ok text => (pyStrip text, 1)
    | Except.error _ =>
      ((if products.length > 0 then
          "I found " ++ Nat.repr products.length ++
            " product(s) that match your query. Check them out below!"
        else if faqs.length > 0 then
          "I found some helpful information that might answer your question."
        else
          "I couldn\x27t find exactly what you\x27re looking for. Try rephrasing your question or browse our categories!"),
        1)

/-- The process-wide service handles of src/main.py. -/
structure Deps (V : Type) where
  provider : String → Except Unit V
  products_collection : Option (V → List ProductMetadata)
  faqs_collection : Option (V → List FaqMetadata)
  gemini_client : Option (Except Unit String)

/-- `POST /query` request body; defaults `TOP_K_PRODUCTS = 3`,
`TOP_K_FAQS = 2`. -/
structure QueryRequest where
  query : String
  top_k_products : Nat := 3
  top_k_faqs : Nat := 2

/-- `query_chatbot` (src/main.py lines 231-292): strip, validate, retrieve
from both collections, generate, assemble.  Also returns the external call
counts of the request. -/
def query_chatbot {V : Type} (deps : Deps V) (request : QueryRequest) :
    Except HTTPError QueryResponse × CallCounts :=
  let query_text := pyStrip request.query
  if query_text = "" then
    (Except.error (HTTPError.badRequest "Query cannot be empty."), ⟨0, 0, 0⟩)
  else if query_text.length > 500 then
    (Except.error (HTTPError.badRequest "Query is too long. Max 500 characters."),
      ⟨0, 0, 0⟩)
  else if deps.products_collection.isNone || deps.faqs_collection.isNone then
    (Except.error
      (HTTPError.serviceUnavailable "Database not available. Please contact support."),
      ⟨0, 0, 0⟩)
  else if deps.gemini_client.isNone then
    (Except.error
      (HTTPError.serviceUnavailable "AI service temporarily unavailable. Please try again."),
      ⟨0, 0, 0⟩)
  else
    let rp := retrieve_products deps.provider deps.products_collection
      query_text (min request.top_k_products 10)
    let rf := retrieve_faqs deps.provider deps.faqs_collection
      query_text (min request.top_k_faqs 5)
    let products := rp.1
    let faqs := rf.1
    let gen := generate_response_with_gemini deps.gemini_client products faqs
    (Except.ok
      { query := query_text
        responseText := gen.1
        products := products
        faqs := faqs
        hasResults := decide (products.length > 0) || decide (faqs.length > 0)
        conversationContext := "Found " ++ Nat.repr products.length ++
          " products and " ++ Nat.repr faqs.length ++ " FAQs" },
      ⟨rp.2.1 + rf.2.1, rp.2.2 + rf.2.2, gen.2⟩)

/-! ## General helper lemmas -/

theorem string_pos_of_ne_empty (s : String) (h : s ≠ "") : 0 < s.length := by
  cases s with
  | mk data =>
    cases data with
    | nil => exact absurd rfl h
    | cons c cs => simp [String.length]

theorem string_ne_empty_of_pos (s : String) (h : 0 < s.length) : s ≠ "" := by
  intro he
  rw [he] at h
  simp [String.length] at h

theorem string_append_ne_left (a b : String) (ha : a ≠ "") : a ++ b ≠ "" := by
  apply string_ne_empty_of_pos
  rw [String.length_append]
  have := string_pos_of_ne_empty a ha
  omega

theorem retrieve_products_embed_calls {V : Type}
    (provider : String → Except Unit V)
    (ranking : V → List ProductMetadata) (query_text : String) (top_k : Nat) :
    (retrieve_products provider (some ranking) query_text top_k).2.1
      = embedProviderCalls query_text := by
  cases h : get_embedding provider query_text with
  | error e => simp [retrieve_products, h]
  | ok o => cases o <;> simp [retrieve_products, h]

theorem retrieve_faqs_embed_calls {V : Type}
    (provider : String → Except Unit V)
    (ranking : V → List FaqMetadata) (query_text : String) (top_k : Nat) :
    (retrieve_faqs provider (some ranking) query_text top_k).2.1
      = embedProviderCalls query_text := by
  cases h : get_embedding provider query_text with
  | error e => simp [retrieve_faqs, h]
  | ok o => cases o <;> simp [retrieve_faqs, h]
/-! ## Claim theorems -/

/-- C1: ingesting the same dataset twice (re-running
`embed_and_store_products` or `embed_and_store_faqs` over the same records,
whose ids `product_<idx>` / `faq_<idx>` are deterministic) leaves the
collection with the same entries — and hence the same entry count — as
ingesting it once: the store operation overwrites the entry for an existing
id instead of appending or failing. -/
theorem c1_reingest_idempotent {V : Type} (provider : String → Except Unit V)
    (batch_size : Nat) (products : List Product) (faqs : List FAQ) :
    (embed_and_store_products provider batch_size products
        (embed_and_store_products provider batch_size products []).store).store
      = (embed_and_store_products provider batch_size products []).store ∧
    (embed_and_store_products provider batch_size products
        (embed_and_store_products provider batch_size products []).store).store.length
      = (embed_and_store_products provider batch_size products []).store.length ∧
    (embed_and_store_faqs provider batch_size faqs
        (embed_and_store_faqs provider batch_size faqs []).store).store
      = (embed_and_store_faqs provider batch_size faqs []).store ∧
    (embed_and_store_faqs provider batch_size faqs
        (embed_and_store_faqs provider batch_size faqs []).store).store.length
      = (embed_and_store_faqs provider batch_size faqs []).store.length := by
  have hp : (embed_and_store_products provider batch_size products
      (embed_and_store_products provider batch_size products []).store).store
      = (embed_and_store_products provider batch_size products []).store := by
    unfold embed_and_store_products
    rw [ingestFrom_store, ingestFrom_store]
    exact applyOps_applyOps _ _
  have hf : (embed_and_store_faqs provider batch_size faqs
      (embed_and_store_faqs provider batch_size faqs []).store).store
      = (embed_and_store_faqs provider batch_size faqs []).store := by
    unfold embed_and_store_faqs
    rw [ingestFrom_store, ingestFrom_store]
    exact applyOps_applyOps _ _
  exact ⟨hp, by rw [hp], hf, by rw [hf]⟩

/-- C6: for empty or whitespace-only text, `get_embedding` returns the
no-embedding value without raising and without a single call to the external
embedding provider. -/
theorem c6_blank_text_not_embedded {V : Type}
    (provider : String → Except Unit V) (text : String)
    (h : pyStrip text = "") :
    get_embedding provider text = Except.ok none ∧
    embedProviderCalls text = 0 := by
  constructor <;> simp [get_embedding, embedProviderCalls, h]

/-- Witness for C6 at the whitespace-only input `"  "`. -/
theorem c6_blank_text_not_embedded_witness :
    get_embedding (fun _ => Except.ok (0 : Nat)) "  " = Except.ok none ∧
    embedProviderCalls "  " = 0 :=
  c6_blank_text_not_embedded (fun _ => Except.ok (0 : Nat)) "  " (by decide)

/-- Fill in every missing field of a product with its default. -/
def fillProduct (p : Product) : Product where
  productName := some (p.productName.getD "")
  brandName := some (p.brandName.getD "")
  phoneModel := some (p.phoneModel.getD "")
  coverType := some (match p.coverType with
    | none => CoverVal.strs []
    | some c => c)
  productDescription := some (p.productDescription.getD "")
  productPrice := some (p.productPrice.getD "")
  productCategory := some (p.productCategory.getD "")
  productUrl := some (p.productUrl.getD "")
  productImage := some (p.productImage.getD "")

/-- Fill in every missing field of a FAQ with its default. -/
def fillFaq (f : FAQ) : FAQ where
  question := some (f.question.getD "")
  answer := some (f.answer.getD "")

/-- C7: text normalization is a total function into strings — for every
record (in particular every record with some non-empty displayable field)
`create_product_text` / `create_faq_text` return a string, missing fields
behaving exactly as the empty-string default; the result is even always
non-empty, so no error path exists. -/
theorem c7_normalization_total (p : Product) (f : FAQ) :
    create_product_text p = create_product_text (fillProduct p) ∧
    create_faq_text f = create_faq_text (fillFaq f) ∧
    create_product_text p ≠ "" ∧ create_faq_text f ≠ "" := by
  refine ⟨?_, ?_, ?_, ?_⟩
  · cases hc : p.coverType with
    | none => simp [create_product_text, fillProduct, coverTypeStr, hc]
    | some c => simp [create_product_text, fillProduct, coverTypeStr, hc]
  · simp [create_faq_text, fillFaq]
  · simp only [create_product_text]
    repeat apply string_append_ne_left
    decide
  · simp only [create_faq_text]
    repeat apply string_append_ne_left
    decide

/-- C8: retrieval returns at most the configured per-collection maximum —
never more than 10 products and never more than 5 FAQs — regardless of the
requested `top_k`. -/
theorem c8_retrieval_clamped {V : Type} (provider : String → Except Unit V)
    (products_collection : Option (V → List ProductMetadata))
    (faqs_collection : Option (V → List FaqMetadata))
    (query_text : String) (top_k_products top_k_faqs : Nat) :
    (retrieve_products provider products_collection query_text
      top_k_products).1.length ≤ 10 ∧
    (retrieve_faqs provider faqs_collection query_text
      top_k_faqs).1.length ≤ 5 := by
  constructor
  · cases products_collection with
    | none => simp [retrieve_products]
    | some ranking =>
      cases h : get_embedding provider query_text with
      | error e => simp [retrieve_products, h]
      | ok o =>
        cases o with
        | none => simp [retrieve_products, h]
        | some v =>
          simp only [retrieve_products, h]
          calc (((ranking v).take (min top_k_products 10)).filterMap _).length
              ≤ ((ranking v).take (min top_k_products 10)).length :=
                List.length_filterMap_le _ _
            _ ≤ min top_k_products 10 := List.length_take_le _ _
            _ ≤ 10 := Nat.min_le_right _ _
  · cases faqs_collection with
    | none => simp [retrieve_faqs]
    | some ranking =>
      cases h : get_embedding provider query_text with
      | error e => simp [retrieve_faqs, h]
      | ok o =>
        cases o with
        | none => simp [retrieve_faqs, h]
        | some v =>
          simp only [retrieve_faqs, h]
          calc (((ranking v).take (min top_k_faqs 5)).filterMap _).length
              ≤ ((ranking v).take (min top_k_faqs 5)).length :=
                List.length_filterMap_le _ _
            _ ≤ min top_k_faqs 5 := List.length_take_le _ _
            _ ≤ 5 := Nat.min_le_right _ _
/-! ## Concrete fixtures for witnesses and counterexamples -/

def goodProductA : Product :=
  ⟨some "Classic Leather Case", some "Casemellow", some "iPhone 13",
    some (CoverVal.strs ["leather"]), some "A sturdy case", some "1200",
    some "phone-cover", some "http://localhost/a", some "img-a"⟩

def goodProductB : Product :=
  ⟨some "Matte Silicone Case", some "Casemellow", some "Pixel 8",
    some (CoverVal.strs ["silicone"]), some "A soft case", some "900",
    some "phone-cover", some "http://localhost/b", some "img-b"⟩

def badProduct : Product :=
  ⟨some "Cursed Case", none, none, none, none, none, none, none, none⟩

def goodFaqA : FAQ :=
  ⟨some "What is your return policy?", some "30 days."⟩

def goodFaqB : FAQ :=
  ⟨some "Do you ship nationwide?", some "Yes, we do."⟩

def badFaq : FAQ :=
  ⟨some "Why is this FAQ cursed?", some "The provider rejects it."⟩

/-- A provider that raises exactly on the texts of `badProduct` and
`badFaq`, and returns the embedding `0` otherwise. -/
def witProvider : String → Except Unit Nat := fun t =>
  if t = create_product_text badProduct ∨ t = create_faq_text badFaq then
    Except.error ()
  else Except.ok 0

def depsOk : Deps Nat where
  provider := fun _ => Except.ok 0
  products_collection := some (fun _ => [])
  faqs_collection := some (fun _ => [])
  gemini_client := some (Except.ok "Happy to help!")

def depsGenFail : Deps Nat where
  provider := fun _ => Except.ok 0
  products_collection := some (fun _ => [])
  faqs_collection := some (fun _ => [])
  gemini_client := some (Except.error ())

/-- C4: when exactly one record of the input is malformed (its embedding
raises or comes back empty) and every other record embeds fine, ingestion
processes all the other records: it finishes with `success_count = N - 1`
and records exactly one failure — no record failure aborts the batch. -/
theorem c4_partial_failure_isolation {V : Type}
    (provider : String → Except Unit V) (batch_size : Nat)
    (_hbs : 0 < batch_size) (pre post : List Product) (bad : Product)
    (hpre : ∀ p ∈ pre, recordSucceeds provider create_product_text p = true)
    (hpost : ∀ p ∈ post, recordSucceeds provider create_product_text p = true)
    (hbad : recordSucceeds provider create_product_text bad = false)
    (fpre fpost : List FAQ) (fbad : FAQ)
    (hfpre : ∀ f ∈ fpre, recordSucceeds provider create_faq_text f = true)
    (hfpost : ∀ f ∈ fpost, recordSucceeds provider create_faq_text f = true)
    (hfbad : recordSucceeds provider create_faq_text fbad = false) :
    (embed_and_store_products provider batch_size (pre ++ bad :: post)
      []).success_count = (pre ++ bad :: post).length - 1 ∧
    (embed_and_store_products provider batch_size (pre ++ bad :: post)
      []).error_count = 1 ∧
    (embed_and_store_faqs provider batch_size (fpre ++ fbad :: fpost)
      []).success_count = (fpre ++ fbad :: fpost).length - 1 ∧
    (embed_and_store_faqs provider batch_size (fpre ++ fbad :: fpost)
      []).error_count = 1 := by
  refine ⟨?_, ?_, ?_, ?_⟩
  · unfold embed_and_store_products
    rw [ingestFrom_success]
    rw [List.countP_append, List.countP_cons]
    rw [List.countP_eq_length.mpr hpre, List.countP_eq_length.mpr hpost]
    simp [hbad]
  · unfold embed_and_store_products
    rw [ingestFrom_error]
    rw [List.countP_append, List.countP_cons]
    rw [List.countP_eq_zero.mpr (fun p hp => by simp [hpre p hp]),
      List.countP_eq_zero.mpr (fun p hp => by simp [hpost p hp])]
    simp [hbad]
  · unfold embed_and_store_faqs
    rw [ingestFrom_success]
    rw [List.countP_append, List.countP_cons]
    rw [List.countP_eq_length.mpr hfpre, List.countP_eq_length.mpr hfpost]
    simp [hfbad]
  · unfold embed_and_store_faqs
    rw [ingestFrom_error]
    rw [List.countP_append, List.countP_cons]
    rw [List.countP_eq_zero.mpr (fun f hf => by simp [hfpre f hf]),
      List.countP_eq_zero.mpr (fun f hf => by simp [hfpost f hf])]
    simp [hfbad]

/-- Witness for C4: three products (resp. FAQs) of which the middle one is
rejected by the provider. -/
theorem c4_partial_failure_isolation_witness :
    (embed_and_store_products witProvider 10
      ([goodProductA] ++ badProduct :: [goodProductB]) []).success_count
      = ([goodProductA] ++ badProduct :: [goodProductB]).length - 1 ∧
    (embed_and_store_products witProvider 10
      ([goodProductA] ++ badProduct :: [goodProductB]) []).error_count = 1 ∧
    (embed_and_store_faqs witProvider 10
      ([goodFaqA] ++ badFaq :: [goodFaqB]) []).success_count
      = ([goodFaqA] ++ badFaq :: [goodFaqB]).length - 1 ∧
    (embed_and_store_faqs witProvider 10
      ([goodFaqA] ++ badFaq :: [goodFaqB]) []).error_count = 1 :=
  c4_partial_failure_isolation witProvider 10 (by decide)
    [goodProductA] [goodProductB] badProduct
    (by decide) (by decide) (by decide)
    [goodFaqA] [goodFaqB] badFaq
    (by decide) (by decide) (by decide)

/-- C5 counterexample: with `batch_size = 2` and input
`[badProduct, goodProductA]`, the run stores only one record yet performs a
pause — the pause fired after a single success because the failed record
also advanced the pacing counter (the loop index), refuting "the pause
occurs after every `batch_size` *successful* records and the pacing counter
advances only on successes". -/
theorem c5_counterexample :
    (embed_and_store_products witProvider 2 [badProduct, goodProductA]
      []).success_count = 1 ∧
    (embed_and_store_products witProvider 2 [badProduct, goodProductA]
      []).sleeps = 1 := by
  decide

/-- C5 amended: the pause fires exactly on the successfully stored records
whose 1-based position among ALL input records (skipped and failed records
included) is a multiple of `batch_size`; the pacing counter is the overall
record index, which advances on every record, although a pause is only ever
executed on a successful record. -/
theorem c5_amended_pause_on_position {V : Type}
    (provider : String → Except Unit V) (batch_size : Nat)
    (_hbs : 0 < batch_size) (products : List Product) (faqs : List FAQ) :
    (embed_and_store_products provider batch_size products []).sleeps
      = pauseCount provider create_product_text batch_size 0 products ∧
    (embed_and_store_faqs provider batch_size faqs []).sleeps
      = pauseCount provider create_faq_text batch_size 0 faqs := by
  constructor
  · unfold embed_and_store_products
    rw [ingestFrom_sleeps]
    simp
  · unfold embed_and_store_faqs
    rw [ingestFrom_sleeps]
    simp

/-- Witness for C5's amended statement on concrete mixed success/failure
inputs. -/
theorem c5_amended_pause_on_position_witness :
    (embed_and_store_products witProvider 2 [badProduct, goodProductA]
      []).sleeps
      = pauseCount witProvider create_product_text 2 0
          [badProduct, goodProductA] ∧
    (embed_and_store_faqs witProvider 2 [goodFaqA, badFaq] []).sleeps
      = pauseCount witProvider create_faq_text 2 0 [goodFaqA, badFaq] :=
  c5_amended_pause_on_position witProvider 2 (by decide)
    [badProduct, goodProductA] [goodFaqA, badFaq]
theorem fallbackText_ne_empty (m n : Nat) : fallbackText m n ≠ "" := by
  unfold fallbackText
  by_cases hm : m > 0
  · rw [if_pos hm]
    repeat apply string_append_ne_left
    decide
  · rw [if_neg hm]
    by_cases hn : n > 0
    · rw [if_pos hn]; decide
    · rw [if_neg hn]; decide

/-- C3: if retrieval succeeded but the generative-model call raises, the
handler still answers 200 with a non-empty `responseText` equal to the
deterministic count-derived template `fallbackText` applied to the actually
retrieved product and FAQ counts; the generation error never reaches the
caller. -/
theorem c3_generation_failure_masked {V : Type} (deps : Deps V)
    (request : QueryRequest) (e : Unit)
    {pcol : V → List ProductMetadata} {fcol : V → List FaqMetadata}
    (hp : deps.products_collection = some pcol)
    (hf : deps.faqs_collection = some fcol)
    (hg : deps.gemini_client = some (Except.error e))
    (hq1 : pyStrip request.query ≠ "")
    (hq2 : (pyStrip request.query).length ≤ 500) :
    ∃ resp, (query_chatbot deps request).1 = Except.ok resp ∧
      resp.responseText = fallbackText resp.products.length resp.faqs.length ∧
      resp.responseText ≠ "" := by
  have h500 : ¬ ((pyStrip request.query).length > 500) := by omega
  simp only [query_chatbot, hp, hf, hg, Option.isNone_some, Bool.or_self,
    if_neg hq1, if_neg h500, Bool.false_eq_true, if_false]
  refine ⟨_, rfl, ?_, ?_⟩
  · simp [generate_response_with_gemini, fallbackText]
  · exact fallbackText_ne_empty _ _

/-- Witness for C3 with a concrete failing generative client. -/
theorem c3_generation_failure_masked_witness :
    ∃ resp,
      (query_chatbot depsGenFail ⟨"best phone case", 3, 2⟩).1
        = Except.ok resp ∧
      resp.responseText = fallbackText resp.products.length resp.faqs.length ∧
      resp.responseText ≠ "" :=
  c3_generation_failure_masked depsGenFail ⟨"best phone case", 3, 2⟩ ()
    rfl rfl rfl (by decide) (by decide)

/-- C2 counterexample: a well-formed request against available collections
issues exactly two embedding-provider calls — `retrieve_products` and
`retrieve_faqs` each embed the query text — refuting "embedded exactly once
per request". -/
theorem c2_counterexample :
    (query_chatbot depsOk ⟨"matte phone case", 3, 2⟩).2.embed = 2 ∧
    (query_chatbot depsOk ⟨"matte phone case", 3, 2⟩).2.embed ≠ 1 := by
  decide

/-- C2 amended: for every validated query against available collections the
query text is embedded exactly once per retrieval function, hence exactly
twice per request, and each collection's nearest-neighbour query is run by
its retrieval function on the same stripped query text. -/
theorem c2_amended_embed_once_per_retrieval {V : Type} (deps : Deps V)
    (request : QueryRequest)
    {pcol : V → List ProductMetadata} {fcol : V → List FaqMetadata}
    {g : Except Unit String}
    (hp : deps.products_collection = some pcol)
    (hf : deps.faqs_collection = some fcol)
    (hg : deps.gemini_client = some g)
    (hq1 : pyStrip request.query ≠ "")
    (hq2 : (pyStrip request.query).length ≤ 500) :
    (query_chatbot deps request).2.embed = 2 ∧
    ∃ resp, (query_chatbot deps request).1 = Except.ok resp ∧
      resp.products = (retrieve_products deps.provider
        deps.products_collection (pyStrip request.query)
        (min request.top_k_products 10)).1 ∧
      resp.faqs = (retrieve_faqs deps.provider deps.faqs_collection
        (pyStrip request.query) (min request.top_k_faqs 5)).1 := by
  have h500 : ¬ ((pyStrip request.query).length > 500) := by omega
  have hcalls : embedProviderCalls (pyStrip request.query) = 1 := by
    unfold embedProviderCalls
    rw [if_neg]
    rw [pyStrip_pyStrip]
    simp [hq1]
  constructor
  · simp only [query_chatbot, hp, hf, hg, Option.isNone_some, Bool.or_self,
      if_neg hq1, if_neg h500, Bool.false_eq_true, if_false]
    show (retrieve_products deps.provider (some pcol) _ _).2.1
      + (retrieve_faqs deps.provider (some fcol) _ _).2.1 = 2
    rw [retrieve_products_embed_calls, retrieve_faqs_embed_calls, hcalls]
  · simp only [query_chatbot, hp, hf, hg, Option.isNone_some, Bool.or_self,
      if_neg hq1, if_neg h500, Bool.false_eq_true, if_false]
    exact ⟨_, rfl, rfl, rfl⟩

/-- Witness for C2's amended statement at a concrete request. -/
theorem c2_amended_embed_once_per_retrieval_witness :
    (query_chatbot depsOk ⟨"matte case", 3, 2⟩).2.embed = 2 ∧
    ∃ resp, (query_chatbot depsOk ⟨"matte case", 3, 2⟩).1 = Except.ok resp ∧
      resp.products = (retrieve_products depsOk.provider
        depsOk.products_collection (pyStrip "matte case") (min 3 10)).1 ∧
      resp.faqs = (retrieve_faqs depsOk.provider depsOk.faqs_collection
        (pyStrip "matte case") (min 2 5)).1 :=
  c2_amended_embed_once_per_retrieval depsOk ⟨"matte case", 3, 2⟩
    rfl rfl rfl (by decide) (by decide)

/-- C9: an empty (after stripping) query, and a query whose validated text
exceeds 500 characters, are rejected with a 400 bad-request failure before
any embedding-provider, vector-store, or generative-model call is made (all
external call counts are zero). -/
theorem c9_validation_before_any_call {V : Type} (deps : Deps V)
    (request : QueryRequest) :
    (pyStrip request.query = "" →
      query_chatbot deps request
        = (Except.error (HTTPError.badRequest "Query cannot be empty."),
            ⟨0, 0, 0⟩)) ∧
    ((pyStrip request.query).length > 500 →
      query_chatbot deps request
        = (Except.error
            (HTTPError.badRequest "Query is too long. Max 500 characters."),
            ⟨0, 0, 0⟩)) := by
  constructor
  · intro h
    simp [query_chatbot, h]
  · intro h
    have hne : pyStrip request.query ≠ "" := by
      intro he
      rw [he] at h
      simp [String.length] at h
    simp [query_chatbot, hne, h]

set_option maxRecDepth 8192 in
/-- Witness for C9: a whitespace-only query and a 501-character query are
both rejected with zero external calls. -/
theorem c9_validation_before_any_call_witness :
    query_chatbot depsOk ⟨" ", 3, 2⟩
      = (Except.error (HTTPError.badRequest "Query cannot be empty."),
          ⟨0, 0, 0⟩) ∧
    query_chatbot depsOk ⟨String.mk (List.replicate 501 'a'), 3, 2⟩
      = (Except.error
          (HTTPError.badRequest "Query is too long. Max 500 characters."),
          ⟨0, 0, 0⟩) :=
  ⟨(c9_validation_before_any_call depsOk ⟨" ", 3, 2⟩).1 (by decide),
   (c9_validation_before_any_call depsOk
      ⟨String.mk (List.replicate 501 'a'), 3, 2⟩).2 (by decide)⟩

/-- C10: the handler strips the query before all validation and processing:
a whitespace-only query is rejected as empty; a query whose *stripped* text
is non-empty and at most 500 characters is accepted (even when the raw
query is longer than 500 characters), with the stripped text being what is
embedded by both retrieval functions and echoed back in the response's
`query` field; and the 400 length rejection is decided on the stripped
text. -/
theorem c10_strip_before_validation {V : Type} (deps : Deps V)
    (request : QueryRequest)
    {pcol : V → List ProductMetadata} {fcol : V → List FaqMetadata}
    {g : Except Unit String}
    (hp : deps.products_collection = some pcol)
    (hf : deps.faqs_collection = some fcol)
    (hg : deps.gemini_client = some g) :
    (pyStrip request.query = "" →
      (query_chatbot deps request).1
        = Except.error (HTTPError.badRequest "Query cannot be empty.")) ∧
    (pyStrip request.query ≠ "" → (pyStrip request.query).length ≤ 500 →
      ∃ resp, (query_chatbot deps request).1 = Except.ok resp ∧
        resp.query = pyStrip request.query ∧
        resp.products = (retrieve_products deps.provider
          deps.products_collection (pyStrip request.query)
          (min request.top_k_products 10)).1 ∧
        resp.faqs = (retrieve_faqs deps.provider deps.faqs_collection
          (pyStrip request.query) (min request.top_k_faqs 5)).1) ∧
    ((pyStrip request.query).length > 500 →
      (query_chatbot deps request).1
        = Except.error
            (HTTPError.badRequest "Query is too long. Max 500 characters.")) := by
  refine ⟨?_, ?_, ?_⟩
  · intro h
    simp [query_chatbot, h]
  · intro hq1 hq2
    have h500 : ¬ ((pyStrip request.query).length > 500) := by omega
    simp only [query_chatbot, hp, hf, hg, Option.isNone_some, Bool.or_self,
      if_neg hq1, if_neg h500, Bool.false_eq_true, if_false]
    exact ⟨_, rfl, rfl, rfl, rfl⟩
  · intro h
    have hne : pyStrip request.query ≠ "" := by
      intro he
      rw [he] at h
      simp [String.length] at h
    simp [query_chatbot, hne, h]

set_option maxRecDepth 8192 in
/-- Witness for C10: a raw query of 503 characters (501 spaces followed by
"hi") strips to "hi", passes validation, is embedded and echoed back
stripped; a whitespace-only query is rejected as empty. -/
theorem c10_strip_before_validation_witness :
    (String.mk (List.replicate 501 ' ') ++ "hi").length > 500 ∧
    (pyStrip (String.mk (List.replicate 501 ' ') ++ "hi")).length ≤ 500 ∧
    (query_chatbot depsOk ⟨"  ", 3, 2⟩).1
      = Except.error (HTTPError.badRequest "Query cannot be empty.") ∧
    (∃ resp,
      (query_chatbot depsOk
        ⟨String.mk (List.replicate 501 ' ') ++ "hi", 3, 2⟩).1
        = Except.ok resp ∧
      resp.query = pyStrip (String.mk (List.replicate 501 ' ') ++ "hi") ∧
      resp.products = (retrieve_products depsOk.provider
        depsOk.products_collection
        (pyStrip (String.mk (List.replicate 501 ' ') ++ "hi")) (min 3 10)).1 ∧
      resp.faqs = (retrieve_faqs depsOk.provider depsOk.faqs_collection
        (pyStrip (String.mk (List.replicate 501 ' ') ++ "hi")) (min 2 5)).1) :=
  ⟨by decide, by decide,
   (c10_strip_before_validation depsOk ⟨"  ", 3, 2⟩ rfl rfl rfl).1 (by decide),
   (c10_strip_before_validation depsOk
      ⟨String.mk (List.replicate 501 ' ') ++ "hi", 3, 2⟩ rfl rfl rfl).2.1
     (by decide) (by decide)⟩
end Casemellow
